import Mathlib

/-!
# Snapshot control protocol of `src/training/snapshot_map.cpp`

A shallow embedding of the class `SnapshotMap` (constructor, `snapshotRequest`,
`dataCallback`, `update`) as pure functions on an explicit state record. Every
member function returns the new state together with the list of effects it had on
the outside world (services and topics advertised, map files saved, messages
published), in program order.

Modelling conventions

* `int responseId_` is a 32-bit signed integer. It is embedded as an `Int` whose
  arithmetic is reduced to 32-bit two's complement by `wrapInt32`: adding one to
  `2147483647` gives `-2147483648`, which is what the compiled program computes
  where the language standard leaves the overflow undefined.
* `double` parameters are embedded as rationals. The file only stores them and hands
  them to the map builder; no arithmetic is done on them.
* The surfel-map library and the ROS transport are external collaborators. A map is
  represented by the arguments it was built from, a visualization cloud by the map
  and the arguments of the visualization call, and the transport by the number of
  live subscriptions on the cloud topic.
* Calls into the collaborators are taken to return normally. The source catches
  nothing, so a failure inside one of them ends the process; such executions
  produce no further state and are outside the model.
* Log lines (`ROS_INFO`), the two allocators and the transform listener have no
  influence on the state or the outputs described here and are left out.
-/

namespace Training

/-! ## Messages -/

/-- Message header: sequence number, time stamp and coordinate frame. -/
structure Header where
  seq : Nat
  stamp : Nat
  frame_id : String
  deriving DecidableEq

/-- One coloured point, `pcl::PointXYZRGB`. -/
structure PointXYZRGB where
  x : ℚ
  y : ℚ
  z : ℚ
  rgb : Nat
  deriving DecidableEq

/-- The cloud message handed to `dataCallback` (`sensor_msgs::PointCloud2`), by its
decoded content. -/
structure PointCloud2 where
  header : Header
  points : List PointXYZRGB
  deriving DecidableEq

/-- The decoded cloud, `pcl::PointCloud<pcl::PointXYZRGB>`: header, points and the
sensor pose (origin as a homogeneous 4-vector, orientation as a quaternion `w x y z`). -/
structure PointCloud where
  header : Header
  points : List PointXYZRGB
  sensor_origin_ : List ℚ
  sensor_orientation_ : List ℚ
  deriving DecidableEq

/-- Modelled from the spec: the request of `rosmrsmap::StringService`, whose
declaration is not among the sources; the spec gives it one string and the code
reads it as `req.str`. -/
structure Request where
  str : String
  deriving DecidableEq

/-- Modelled from the spec: the response of `rosmrsmap::StringService`, whose
declaration is not among the sources; the spec gives it one integer and the code
writes it as `res.responseId`. -/
structure Response where
  responseId : Int
  deriving DecidableEq

/-! ## Collaborators -/

/-- A `MultiResolutionSurfelMap`, represented by what it was built from: the two
constructor parameters, the cloud and index set given to `addPoints`, and the
border index set given to `markNoUpdateAtPoints`. -/
structure MultiResolutionSurfelMap where
  max_resolution : ℚ
  max_radius : ℚ
  cloud : PointCloud
  pointIndices : List Nat
  imageBorderIndices : List Nat
  deriving DecidableEq

/-- The cloud filled by `visualize3DColorDistribution`: the header it was given
beforehand, the map it was drawn from and the three trailing call arguments. -/
structure ColorCloud where
  header : Header
  map : MultiResolutionSurfelMap
  depth : Int
  viewDir : Int
  random : Bool
  deriving DecidableEq

/-- Effects on the outside world, in the order the program performs them. -/
inductive Event where
  | advertiseService (name : String)
  | advertise (topic : String)
  | readParam (name : String)
  | response (ok : Bool) (res : Response)
  | save (path : String) (map : MultiResolutionSurfelMap)
  | publishCloud (cloud : ColorCloud)
  | publishStatus (data : Int)
  deriving DecidableEq

/-- The node handle `nh_`, by the number of live subscriptions to `input_cloud`
made through it. -/
structure NodeHandle where
  subscriptions : Nat
  deriving DecidableEq

/-- A `ros::Subscriber` handle: `active` while it refers to a subscription that
has not been shut down. A default-constructed handle is not active. -/
structure Subscriber where
  active : Bool
  deriving DecidableEq

/-- `nh.subscribe(...)`: registers one more subscription and returns its handle. -/
def NodeHandle.subscribe (nh : NodeHandle) : NodeHandle × Subscriber :=
  ({ subscriptions := nh.subscriptions + 1 }, { active := true })

/-- `sub.shutdown()`: an active handle removes its subscription from the node and
becomes inactive; on an inactive handle nothing happens. Releasing the last copy of
a handle (overwriting the variable that holds it) does the same. -/
def Subscriber.shutdown (sub : Subscriber) (nh : NodeHandle) : NodeHandle × Subscriber :=
  if sub.active then ({ subscriptions := nh.subscriptions - 1 }, { active := false })
  else (nh, sub)

/-- The parameter server as seen by the constructor: each of the three parameters
is either set or absent. -/
structure ParamServer where
  max_resolution : Option ℚ
  max_radius : Option ℚ
  map_folder : Option String
  deriving DecidableEq

/-- `nh.param<T>( name, var, default )`: the configured value, or the default. -/
def param {α : Type} (configured : Option α) (dflt : α) : α :=
  configured.getD dflt

/-- The value of an `int` expression: `x` reduced to 32-bit two's complement,
that is modulo `2^32` into the range `-2147483648 .. 2147483647`. -/
def wrapInt32 (x : Int) : Int :=
  (x + 2147483648) % 4294967296 - 2147483648

/-! ## The class -/

/-- The data members of `SnapshotMap` that carry state. -/
structure SnapshotMap where
  nh_ : NodeHandle
  sub_cloud_ : Subscriber
  max_resolution_ : ℚ
  max_radius_ : ℚ
  create_map_ : Bool
  map_folder_ : String
  object_name_ : String
  responseId_ : Int
  deriving DecidableEq

namespace SnapshotMap

/-- The constructor `SnapshotMap::SnapshotMap`: advertises the service and the two
output topics, then reads the three parameters from the parameter server, and
starts disarmed with counter `-1`. -/
def ctor (ps : ParamServer) : SnapshotMap × List Event :=
  ({ nh_ := { subscriptions := 0 }
     sub_cloud_ := { active := false }
     max_resolution_ := param ps.max_resolution (1 / 80)
     max_radius_ := param ps.max_radius 30
     create_map_ := false
     map_folder_ := param ps.map_folder "."
     object_name_ := ""
     responseId_ := -1 },
   [Event.advertiseService "snapshot", Event.advertise "output_cloud",
    Event.advertise "status", Event.readParam "max_resolution",
    Event.readParam "max_radius", Event.readParam "map_folder"])

/-- The service handler `snapshotRequest`: stores the name, subscribes to the cloud
topic (the new handle replaces the old one in `sub_cloud_`), arms, and answers with
the counter plus one, computed in `int`. Returns the new state, the return value
of the handler and the response. -/
def snapshotRequest (s : SnapshotMap) (req : Request) : SnapshotMap × Bool × Response :=
  let s1 := { s with object_name_ := req.str }
  let (nh1, sub) := s1.nh_.subscribe
  let (nh2, _) := s1.sub_cloud_.shutdown nh1
  let s2 := { s1 with nh_ := nh2, sub_cloud_ := sub }
  let s3 := { s2 with create_map_ := true }
  (s3, true, { responseId := wrapInt32 (s3.responseId_ + 1) })

/-- The decoded input cloud after its sensor pose has been set to the identity
(`sensor_orientation_.setIdentity()`, `sensor_origin_ = (0, 0, 0, 1)`). -/
def pointCloudIn (point_cloud : PointCloud2) : PointCloud :=
  { header := point_cloud.header
    points := point_cloud.points
    sensor_origin_ := [0, 0, 0, 1]
    sensor_orientation_ := [1, 0, 0, 0] }

/-- The map built in `dataCallback`: constructed with the two parameters, filled
with every point of the cloud (indices `0 .. size-1`) and with no border indices. -/
def buildMap (s : SnapshotMap) (point_cloud : PointCloud2) : MultiResolutionSurfelMap :=
  { max_resolution := s.max_resolution_
    max_radius := s.max_radius_
    cloud := pointCloudIn point_cloud
    pointIndices := List.range (pointCloudIn point_cloud).points.length
    imageBorderIndices := [] }

/-- The path the map is saved to: `map_folder_ + "/" + object_name_ + ".map"`. -/
def mapPath (s : SnapshotMap) : String :=
  s.map_folder_ ++ "/" ++ s.object_name_ ++ ".map"

/-- The cloud callback `dataCallback`: returns at once unless armed; otherwise
builds the map, saves it, publishes its visualization with the input header, shuts
the subscription down, disarms and increments the `int` counter. -/
def dataCallback (s : SnapshotMap) (point_cloud : PointCloud2) : SnapshotMap × List Event :=
  if !s.create_map_ then (s, [])
  else
    let map := buildMap s point_cloud
    let cloudv : ColorCloud :=
      { header := (pointCloudIn point_cloud).header, map := map,
        depth := -1, viewDir := -1, random := false }
    let (nh1, sub) := s.sub_cloud_.shutdown s.nh_
    let s1 := { s with nh_ := nh1, sub_cloud_ := sub }
    let s2 := { s1 with create_map_ := false }
    let s3 := { s2 with responseId_ := wrapInt32 (s2.responseId_ + 1) }
    (s3, [Event.save (mapPath s) map, Event.publishCloud cloudv])

/-- The heartbeat `update`: publishes the counter on the status topic. -/
def update (s : SnapshotMap) : SnapshotMap × List Event :=
  (s, [Event.publishStatus s.responseId_])

/-! ## The event loop -/

/-- One callback dispatched by the node's event loop: a service request, a cloud
delivered to the cloud callback, or one tick of the main loop's `update()`. -/
inductive Op where
  | request (req : Request)
  | cloud (point_cloud : PointCloud2)
  | heartbeat
  deriving DecidableEq

/-- Whether an operation is a cloud delivery. -/
def Op.isCloud : Op → Bool
  | .cloud _ => true
  | _ => false

/-- Runs one operation to completion. The return value and response of a request go
into the trace as the answer sent to the caller. A cloud is handed to `dataCallback`
in every state, also when nothing is subscribed, where the transport would not
call it at all. -/
def step (s : SnapshotMap) : Op → SnapshotMap × List Event
  | .request req =>
      ((snapshotRequest s req).1,
       [Event.response (snapshotRequest s req).2.1 (snapshotRequest s req).2.2])
  | .cloud point_cloud => dataCallback s point_cloud
  | .heartbeat => update s

/-- Runs a sequence of operations one after another (run-to-completion dispatch on
one thread), collecting the effects in order. -/
def run (s : SnapshotMap) : List Op → SnapshotMap × List Event
  | [] => (s, [])
  | op :: ops => ((run (step s op).1 ops).1, (step s op).2 ++ (run (step s op).1 ops).2)

/-- The paths of the map files saved in a trace, in order. -/
def savedPaths : List Event → List String
  | [] => []
  | Event.save path _ :: es => path :: savedPaths es
  | _ :: es => savedPaths es

/-- The visualization clouds published in a trace, in order. -/
def publishedClouds : List Event → List ColorCloud
  | [] => []
  | Event.publishCloud c :: es => c :: publishedClouds es
  | _ :: es => publishedClouds es

/-- The status values published in a trace, in order. -/
def publishedStatuses : List Event → List Int
  | [] => []
  | Event.publishStatus d :: es => d :: publishedStatuses es
  | _ :: es => publishedStatuses es

/-- The number of requests in a sequence of operations that arrive while the
controller is disarmed, the sequence being run from state `s`. -/
def idleRequests (s : SnapshotMap) : List Op → Nat
  | [] => 0
  | op :: ops =>
      (match op with
        | .request _ => if s.create_map_ then 0 else 1
        | _ => 0) + idleRequests (step s op).1 ops

/-- The number of completed captures in a sequence of operations run from state
`s`: the cloud deliveries that find the controller armed. -/
def captures (s : SnapshotMap) : List Op → Nat
  | [] => 0
  | op :: ops => (if op.isCloud && s.create_map_ then 1 else 0) + captures (step s op).1 ops

/-- The number of heartbeats in a sequence of operations. -/
def heartbeats : List Op → Nat
  | [] => 0
  | .heartbeat :: ops => heartbeats ops + 1
  | _ :: ops => heartbeats ops

/-- The state right after construction with nothing configured: counter `-1`,
folder `"."`, disarmed. -/
def initial : SnapshotMap :=
  (ctor { max_resolution := none, max_radius := none, map_folder := none }).1

/-- The subscription bookkeeping agrees with the armed flag: one live subscription
held by an active handle when armed, none and an inactive handle when disarmed. -/
def SingleSession (s : SnapshotMap) : Prop :=
  s.nh_.subscriptions = (if s.create_map_ then 1 else 0) ∧ s.sub_cloud_.active = s.create_map_

/-- A sample cloud of two points, used to evaluate the model on concrete input. -/
def sampleCloud : PointCloud2 :=
  { header := { seq := 7, stamp := 1000, frame_id := "camera" }
    points := [{ x := 1, y := 2, z := 3, rgb := 255 }, { x := 0, y := 0, z := 1, rgb := 0 }] }

/-- A sample armed state: the initial state after a request for `"chair"`. -/
def armedChair : SnapshotMap :=
  (snapshotRequest initial { str := "chair" }).1

/-- The operation sequence of `n` complete captures in a row: `n` times a request
for `"chair"` followed by the sample cloud. -/
def captureCycles : Nat → List Op
  | 0 => []
  | n + 1 => Op.request { str := "chair" } :: Op.cloud sampleCloud :: captureCycles n

/-- The state the initial state is in after `2147483648` complete captures of
`"chair"`: disarmed, with the counter at the largest `int`. -/
def counterAtMax : SnapshotMap :=
  { initial with object_name_ := "chair", responseId_ := 2147483647 }

theorem wrapInt32_of_inRange (x : Int) (h1 : -2147483648 ≤ x) (h2 : x ≤ 2147483647) :
    wrapInt32 x = x := by
  unfold wrapInt32
  omega

theorem wrapInt32_range (x : Int) : -2147483648 ≤ wrapInt32 x ∧ wrapInt32 x ≤ 2147483647 := by
  unfold wrapInt32
  omega

theorem wrapInt32_add (x y : Int) : wrapInt32 (wrapInt32 x + y) = wrapInt32 (x + y) := by
  unfold wrapInt32
  omega

/-! ## Basic facts about the member functions -/

theorem snapshotRequest_eq (s : SnapshotMap) (req : Request) :
    snapshotRequest s req =
      ({ s with
          object_name_ := req.str
          nh_ := { subscriptions :=
            if s.sub_cloud_.active then s.nh_.subscriptions + 1 - 1
            else s.nh_.subscriptions + 1 }
          sub_cloud_ := { active := true }
          create_map_ := true },
       true, { responseId := wrapInt32 (s.responseId_ + 1) }) := by
  unfold snapshotRequest NodeHandle.subscribe Subscriber.shutdown
  by_cases h : s.sub_cloud_.active = true <;> simp [h]

theorem dataCallback_idle (s : SnapshotMap) (point_cloud : PointCloud2)
    (h : s.create_map_ = false) : dataCallback s point_cloud = (s, []) := by
  simp [dataCallback, h]

theorem dataCallback_armed (s : SnapshotMap) (point_cloud : PointCloud2)
    (h : s.create_map_ = true) :
    dataCallback s point_cloud =
      ({ s with
          nh_ := { subscriptions :=
            if s.sub_cloud_.active then s.nh_.subscriptions - 1 else s.nh_.subscriptions }
          sub_cloud_ := { active := false }
          create_map_ := false
          responseId_ := wrapInt32 (s.responseId_ + 1) },
       [Event.save (s.map_folder_ ++ "/" ++ s.object_name_ ++ ".map") (buildMap s point_cloud),
        Event.publishCloud
          { header := point_cloud.header, map := buildMap s point_cloud,
            depth := -1, viewDir := -1, random := false }]) := by
  unfold dataCallback Subscriber.shutdown mapPath pointCloudIn
  by_cases h2 : s.sub_cloud_.active = true
  · simp [h, h2]
  · have h3 : s.sub_cloud_ = { active := false } := by
      cases hs : s.sub_cloud_ with
      | mk a => cases a <;> simp_all
    simp [h, h2, h3]

theorem run_append (s : SnapshotMap) (ops ops2 : List Op) :
    run s (ops ++ ops2) =
      ((run (run s ops).1 ops2).1, (run s ops).2 ++ (run (run s ops).1 ops2).2) := by
  induction ops generalizing s with
  | nil => simp [run]
  | cons op ops ih => simp [run, ih, List.append_assoc]

theorem buildMap_snapshotRequest (s : SnapshotMap) (req : Request) (point_cloud : PointCloud2) :
    buildMap (snapshotRequest s req).1 point_cloud = buildMap s point_cloud := by
  simp [snapshotRequest_eq, buildMap]

/-- The request followed by a cloud, from any state: the trace and the counter. -/
theorem request_then_cloud (s : SnapshotMap) (req : Request) (point_cloud : PointCloud2) :
    dataCallback (snapshotRequest s req).1 point_cloud =
      ({ s with
          object_name_ := req.str
          nh_ := { subscriptions :=
            (if s.sub_cloud_.active then s.nh_.subscriptions + 1 - 1
             else s.nh_.subscriptions + 1) - 1 }
          sub_cloud_ := { active := false }
          create_map_ := false
          responseId_ := wrapInt32 (s.responseId_ + 1) },
       [Event.save (s.map_folder_ ++ "/" ++ req.str ++ ".map") (buildMap s point_cloud),
        Event.publishCloud
          { header := point_cloud.header, map := buildMap s point_cloud,
            depth := -1, viewDir := -1, random := false }]) := by
  rw [dataCallback_armed _ _ (by simp [snapshotRequest_eq]), buildMap_snapshotRequest]
  simp [snapshotRequest_eq]

/-- The path built from a folder and a name determines the name. -/
theorem mapPath_injective (f a b : String)
    (h : f ++ "/" ++ a ++ ".map" = f ++ "/" ++ b ++ ".map") : a = b := by
  have h2 := congrArg String.data h
  simp only [String.data_append, List.append_assoc] at h2
  have h3 := List.append_cancel_left h2
  have h4 := List.append_cancel_left h3
  have h5 := List.append_cancel_right h4
  exact String.ext h5

/-- A request, a cloud and a heartbeat, from any state. -/
theorem request_cloud_heartbeat (s : SnapshotMap) (req : Request) (point_cloud : PointCloud2) :
    run s [Op.request req, Op.cloud point_cloud, Op.heartbeat] =
      ((dataCallback (snapshotRequest s req).1 point_cloud).1,
       [Event.response true { responseId := wrapInt32 (s.responseId_ + 1) },
        Event.save (s.map_folder_ ++ "/" ++ req.str ++ ".map") (buildMap s point_cloud),
        Event.publishCloud
          { header := point_cloud.header, map := buildMap s point_cloud,
            depth := -1, viewDir := -1, random := false },
        Event.publishStatus (wrapInt32 (s.responseId_ + 1))]) := by
  simp only [run, step, update, request_then_cloud]
  simp [snapshotRequest_eq]

/-- Two requests followed by a cloud, from any state. -/
theorem request_request_cloud (s : SnapshotMap) (a b : Request) (point_cloud : PointCloud2) :
    run s [Op.request a, Op.request b, Op.cloud point_cloud] =
      ((dataCallback (snapshotRequest (snapshotRequest s a).1 b).1 point_cloud).1,
       [Event.response true { responseId := wrapInt32 (s.responseId_ + 1) },
        Event.response true { responseId := wrapInt32 (s.responseId_ + 1) },
        Event.save (s.map_folder_ ++ "/" ++ b.str ++ ".map") (buildMap s point_cloud),
        Event.publishCloud
          { header := point_cloud.header, map := buildMap s point_cloud,
            depth := -1, viewDir := -1, random := false }]) := by
  simp only [run, step, request_then_cloud, buildMap_snapshotRequest]
  simp [snapshotRequest_eq]

/-- The counter after one operation: incremented in `int` by a cloud delivered
while armed, unchanged otherwise. -/
theorem step_responseId (s : SnapshotMap) (op : Op) :
    (step s op).1.responseId_ =
      if op.isCloud && s.create_map_ then wrapInt32 (s.responseId_ + 1) else s.responseId_ := by
  cases op with
  | request req => simp [step, snapshotRequest_eq, Op.isCloud]
  | cloud pc =>
    cases h : s.create_map_
    · simp [step, dataCallback_idle s pc h, Op.isCloud]
    · simp [step, dataCallback_armed s pc h, Op.isCloud]
  | heartbeat => simp [step, update, Op.isCloud]

theorem captures_append (s : SnapshotMap) (ops ops2 : List Op) :
    captures s (ops ++ ops2) = captures s ops + captures (run s ops).1 ops2 := by
  induction ops generalizing s with
  | nil => simp [captures, run]
  | cons op ops ih => simp [captures, run, ih, Nat.add_assoc]

/-- The counter after a run from a state whose counter is a valid `int`: the
starting value plus the number of captures, reduced to `int`. -/
theorem run_responseId (s : SnapshotMap) (ops : List Op)
    (h1 : -2147483648 ≤ s.responseId_) (h2 : s.responseId_ ≤ 2147483647) :
    (run s ops).1.responseId_ = wrapInt32 (s.responseId_ + captures s ops) := by
  induction ops generalizing s with
  | nil => simp [run, captures, wrapInt32_of_inRange _ h1 h2]
  | cons op ops ih =>
    have hs := step_responseId s op
    have hr := wrapInt32_range (s.responseId_ + 1)
    simp only [run, captures]
    by_cases hc : (op.isCloud && s.create_map_) = true
    · rw [if_pos hc] at hs
      rw [ih _ (by rw [hs]; exact hr.1) (by rw [hs]; exact hr.2), hs, wrapInt32_add, if_pos hc]
      congr 1
      push_cast
      omega
    · rw [if_neg hc] at hs
      rw [ih _ (by rw [hs]; exact h1) (by rw [hs]; exact h2), hs, if_neg hc]
      congr 1
      push_cast
      omega

theorem captures_captureCycles (s : SnapshotMap) (n : Nat) :
    captures s (captureCycles n) = n := by
  induction n generalizing s with
  | zero => rfl
  | succ n ih =>
    simp only [captureCycles, captures, ih, step, Op.isCloud, snapshotRequest_eq]
    simp
    omega

theorem publishedStatuses_append (es es2 : List Event) :
    publishedStatuses (es ++ es2) = publishedStatuses es ++ publishedStatuses es2 := by
  induction es with
  | nil => rfl
  | cons e es ih => cases e <;> simp [publishedStatuses, ih]

theorem savedPaths_append (es es2 : List Event) :
    savedPaths (es ++ es2) = savedPaths es ++ savedPaths es2 := by
  induction es with
  | nil => rfl
  | cons e es ih => cases e <;> simp [savedPaths, ih]

theorem publishedClouds_append (es es2 : List Event) :
    publishedClouds (es ++ es2) = publishedClouds es ++ publishedClouds es2 := by
  induction es with
  | nil => rfl
  | cons e es ih => cases e <;> simp [publishedClouds, ih]

/-- What one operation publishes on the status topic. -/
theorem step_publishedStatuses (s : SnapshotMap) (op : Op) :
    publishedStatuses (step s op).2 = if op = Op.heartbeat then [s.responseId_] else [] := by
  cases op with
  | request req => simp [step, publishedStatuses]
  | cloud pc =>
    cases h : s.create_map_
    · simp [step, dataCallback_idle s pc h, publishedStatuses]
    · simp [step, dataCallback_armed s pc h, publishedStatuses]
  | heartbeat => simp [step, update, publishedStatuses]

/-- How many maps one operation saves and how many clouds it publishes. -/
theorem step_outputs (s : SnapshotMap) (op : Op) :
    (savedPaths (step s op).2).length = (if op.isCloud && s.create_map_ then 1 else 0) ∧
    (publishedClouds (step s op).2).length = (if op.isCloud && s.create_map_ then 1 else 0) := by
  cases op with
  | request req => simp [step, savedPaths, publishedClouds, Op.isCloud]
  | cloud pc =>
    cases h : s.create_map_
    · simp [step, dataCallback_idle s pc h, savedPaths, publishedClouds, Op.isCloud]
    · simp [step, dataCallback_armed s pc h, savedPaths, publishedClouds, Op.isCloud]
  | heartbeat => simp [step, update, savedPaths, publishedClouds, Op.isCloud]

/-- The armed flag after one operation. -/
theorem step_create_map (s : SnapshotMap) (op : Op) :
    (step s op).1.create_map_ =
      match op with
      | .request _ => true
      | .cloud _ => false
      | .heartbeat => s.create_map_ := by
  cases op with
  | request req => simp [step, snapshotRequest_eq]
  | cloud pc =>
    cases h : s.create_map_
    · simp [step, dataCallback_idle s pc h, h]
    · simp [step, dataCallback_armed s pc h]
  | heartbeat => simp [step, update]

theorem singleSession_ctor (ps : ParamServer) : SingleSession (ctor ps).1 := by
  simp [SingleSession, ctor]

theorem singleSession_step (s : SnapshotMap) (op : Op) (h : SingleSession s) :
    SingleSession (step s op).1 := by
  obtain ⟨h1, h2⟩ := h
  cases op with
  | request req =>
    cases hc : s.create_map_ <;> simp [SingleSession, step, snapshotRequest_eq, h1, h2, hc]
  | cloud pc =>
    cases hc : s.create_map_
    · simp [SingleSession, step, dataCallback_idle s pc hc, h1, h2, hc]
    · simp [SingleSession, step, dataCallback_armed s pc hc, h1, h2, hc]
  | heartbeat => exact ⟨h1, h2⟩

theorem singleSession_run (s : SnapshotMap) (ops : List Op) (h : SingleSession s) :
    SingleSession (run s ops).1 := by
  induction ops generalizing s with
  | nil => exact h
  | cons op ops ih => exact ih _ (singleSession_step s op h)

/-- Outputs and idle requests of a run, measured against its captures, from any
starting state. -/
theorem run_counts (s : SnapshotMap) (ops : List Op) :
    (savedPaths (run s ops).2).length = captures s ops ∧
    (publishedClouds (run s ops).2).length = captures s ops ∧
    idleRequests s ops + (if s.create_map_ then 1 else 0) =
      captures s ops + (if (run s ops).1.create_map_ then 1 else 0) := by
  induction ops generalizing s with
  | nil => simp [run, savedPaths, publishedClouds, idleRequests, captures]
  | cons op ops ih =>
    obtain ⟨i1, i2, i3⟩ := ih (step s op).1
    have ho := step_outputs s op
    have ha := step_create_map s op
    simp only [run, idleRequests, captures, savedPaths_append, publishedClouds_append,
      List.length_append]
    rw [i1, i2, ho.1, ho.2]
    refine ⟨rfl, rfl, ?_⟩
    cases op with
    | request req =>
      simp only [Op.isCloud, Bool.false_and] at ha ⊢
      simp only [ha] at i3
      cases hs : s.create_map_ <;> simp_all
      omega
    | cloud pc =>
      simp only [Op.isCloud, Bool.true_and] at ha ⊢
      simp only [ha] at i3
      cases hs : s.create_map_ <;> simp_all
      omega
    | heartbeat =>
      simp only [Op.isCloud, Bool.false_and] at ha ⊢
      simp only [ha] at i3
      cases hs : s.create_map_ <;> simp_all

/-- The state after `n + 1` complete captures of `"chair"` from a disarmed state
with nothing subscribed: only the name and the counter differ. -/
theorem run_captureCycles (n : Nat) (s : SnapshotMap) (hidle : s.create_map_ = false)
    (hsub : s.sub_cloud_ = { active := false }) (hnh : s.nh_ = { subscriptions := 0 }) :
    (run s (captureCycles (n + 1))).1 =
      { s with object_name_ := "chair", responseId_ := wrapInt32 (s.responseId_ + (n + 1 : Nat)) } := by
  induction n generalizing s with
  | zero =>
    simp only [captureCycles, run, step, request_then_cloud]
    cases s
    simp_all
  | succ n ih =>
    have e : (run s (captureCycles (n + 1 + 1))).1 =
        (run (dataCallback (snapshotRequest s { str := "chair" }).1 sampleCloud).1
          (captureCycles (n + 1))).1 := rfl
    rw [e, request_then_cloud, ih _ rfl rfl (by simp [hsub, hnh])]
    simp only [wrapInt32_add]
    cases s
    simp_all
    congr 1
    omega

/-- The state with the counter at the largest `int` is reached from the initial
state by `2147483648` complete captures. -/
theorem counterAtMax_reachable :
    (run initial (captureCycles 2147483648)).1 = counterAtMax := by
  have h := run_captureCycles 2147483647 initial rfl rfl rfl
  rw [h]
  unfold counterAtMax
  congr 1

theorem wrapInt32_succ (c : Int) (hlo : -2147483648 ≤ c) (hhi : c < 2147483647) :
    wrapInt32 (c + 1) = c + 1 := by
  unfold wrapInt32
  omega

/-- The counter after a run from construction with at most `2147483648` captures:
the number of captures minus one. -/
theorem run_ctor_responseId (ps : ParamServer) (ops : List Op)
    (h : captures (ctor ps).1 ops ≤ 2147483648) :
    (run (ctor ps).1 ops).1.responseId_ = (captures (ctor ps).1 ops : Int) - 1 := by
  have hc : (ctor ps).1.responseId_ = -1 := rfl
  rw [run_responseId _ _ (by rw [hc]; omega) (by rw [hc]; omega), hc]
  unfold wrapInt32
  omega

/-! ## The claims -/

/-- C1, as stated, fails at the largest `int`: in the state with counter
`2147483647`, which `2147483648` captures reach, `snapshotRequest` answers
`-2147483648` and not the counter plus one. -/
theorem snapshotRequest_wraps_at_int_max :
    counterAtMax.responseId_ = 2147483647 ∧
    (snapshotRequest counterAtMax { str := "table" }).2.2.responseId = -2147483648 ∧
    (snapshotRequest counterAtMax { str := "table" }).2.2.responseId ≠
      counterAtMax.responseId_ + 1 := by
  refine ⟨rfl, ?_, ?_⟩ <;> simp only [snapshotRequest_eq] <;> decide

/-- C1, amended: in every state, with counter `c`, and for every request,
`snapshotRequest` returns `true`, leaves the counter at `c`, records the requested
name as the pending object name and leaves the controller armed (with an active
subscription handle and the configuration untouched); and it answers `c + 1`
whenever `c` is an `int` below `2147483647`. -/
theorem snapshotRequest_predicts_next_id (s : SnapshotMap) (req : Request) :
    (snapshotRequest s req).2.1 = true ∧
    (-2147483648 ≤ s.responseId_ → s.responseId_ < 2147483647 →
      (snapshotRequest s req).2.2.responseId = s.responseId_ + 1) ∧
    (snapshotRequest s req).1.responseId_ = s.responseId_ ∧
    (snapshotRequest s req).1.object_name_ = req.str ∧
    (snapshotRequest s req).1.create_map_ = true ∧
    (snapshotRequest s req).1.sub_cloud_.active = true ∧
    (snapshotRequest s req).1.map_folder_ = s.map_folder_ ∧
    (snapshotRequest s req).1.max_resolution_ = s.max_resolution_ ∧
    (snapshotRequest s req).1.max_radius_ = s.max_radius_ := by
  refine ⟨?_, fun hlo hhi => ?_, ?_⟩
  · simp [snapshotRequest_eq]
  · simp [snapshotRequest_eq, wrapInt32_succ _ hlo hhi]
  · simp [snapshotRequest_eq]

/-- A request in the initial state, counter `-1`, answers `0`. -/
theorem snapshotRequest_predicts_next_id_witness :
    -2147483648 ≤ initial.responseId_ ∧ initial.responseId_ < 2147483647 ∧
    (snapshotRequest initial { str := "chair" }).2.2.responseId = initial.responseId_ + 1 :=
  ⟨by decide, by decide,
    (snapshotRequest_predicts_next_id initial { str := "chair" }).2.1 (by decide) (by decide)⟩

/-- C2, as stated, fails at the largest `int`: the armed state with counter
`2147483647` consumes a cloud and ends with counter `-2147483648`, not the counter
plus one. -/
theorem dataCallback_wraps_at_int_max :
    (snapshotRequest counterAtMax { str := "chair" }).1.create_map_ = true ∧
    (snapshotRequest counterAtMax { str := "chair" }).1.responseId_ = 2147483647 ∧
    (dataCallback (snapshotRequest counterAtMax { str := "chair" }).1 sampleCloud).1.responseId_ =
      -2147483648 ∧
    (dataCallback (snapshotRequest counterAtMax { str := "chair" }).1 sampleCloud).1.responseId_ ≠
      (snapshotRequest counterAtMax { str := "chair" }).1.responseId_ + 1 := by
  refine ⟨rfl, rfl, ?_, ?_⟩ <;> simp only [request_then_cloud, snapshotRequest_eq] <;> decide

/-- C2, amended: in every armed state, with pending name `n`, folder `f` and
counter `c`, and for every cloud, `dataCallback` emits exactly one map save, to
`f + "/" + n + ".map"`, followed by exactly one visualization publish, and ends
disarmed, with the subscription handle shut down; the name and the configuration
are unchanged, and a further cloud right after emits nothing and changes nothing.
The counter ends at `c + 1` whenever `c` is an `int` below `2147483647`. -/
theorem dataCallback_consumes_one_cloud (s : SnapshotMap) (point_cloud : PointCloud2)
    (h : s.create_map_ = true) :
    (dataCallback s point_cloud).2 =
      [Event.save (s.map_folder_ ++ "/" ++ s.object_name_ ++ ".map") (buildMap s point_cloud),
       Event.publishCloud
         { header := point_cloud.header, map := buildMap s point_cloud,
           depth := -1, viewDir := -1, random := false }] ∧
    savedPaths (dataCallback s point_cloud).2 =
      [s.map_folder_ ++ "/" ++ s.object_name_ ++ ".map"] ∧
    (publishedClouds (dataCallback s point_cloud).2).length = 1 ∧
    publishedStatuses (dataCallback s point_cloud).2 = [] ∧
    (dataCallback s point_cloud).1.create_map_ = false ∧
    (dataCallback s point_cloud).1.sub_cloud_.active = false ∧
    (dataCallback s point_cloud).1.nh_.subscriptions =
      (if s.sub_cloud_.active then s.nh_.subscriptions - 1 else s.nh_.subscriptions) ∧
    (-2147483648 ≤ s.responseId_ → s.responseId_ < 2147483647 →
      (dataCallback s point_cloud).1.responseId_ = s.responseId_ + 1) ∧
    (dataCallback s point_cloud).1.object_name_ = s.object_name_ ∧
    (dataCallback s point_cloud).1.map_folder_ = s.map_folder_ ∧
    (dataCallback s point_cloud).1.max_resolution_ = s.max_resolution_ ∧
    (dataCallback s point_cloud).1.max_radius_ = s.max_radius_ ∧
    ∀ second : PointCloud2,
      dataCallback (dataCallback s point_cloud).1 second = ((dataCallback s point_cloud).1, []) := by
  refine ⟨?_, ?_, ?_, ?_, ?_, ?_, ?_, ?_, ?_, ?_, ?_, ?_, ?_⟩ <;>
    first
      | (intro second; exact dataCallback_idle _ _ (by rw [dataCallback_armed s point_cloud h]))
      | (intro hlo hhi; simp [dataCallback_armed s point_cloud h, wrapInt32_succ _ hlo hhi])
      | simp [dataCallback_armed s point_cloud h, savedPaths, publishedClouds, publishedStatuses]

/-- The armed sample state consumes the sample cloud: one save to `"./chair.map"`,
one publish, counter from `-1` to `0`, disarmed with no subscription left. -/
theorem dataCallback_consumes_one_cloud_witness :
    armedChair.create_map_ = true ∧
    savedPaths (dataCallback armedChair sampleCloud).2 = ["./chair.map"] ∧
    (publishedClouds (dataCallback armedChair sampleCloud).2).length = 1 ∧
    (dataCallback armedChair sampleCloud).1.create_map_ = false ∧
    (dataCallback armedChair sampleCloud).1.nh_.subscriptions = 0 ∧
    (dataCallback armedChair sampleCloud).1.responseId_ = 0 ∧
    dataCallback (dataCallback armedChair sampleCloud).1 sampleCloud =
      ((dataCallback armedChair sampleCloud).1, []) :=
  have w := dataCallback_consumes_one_cloud armedChair sampleCloud rfl
  ⟨rfl, w.2.1, w.2.2.1, w.2.2.2.2.1, w.2.2.2.2.2.2.1, w.2.2.2.2.2.2.2.1 (by decide) (by decide),
    w.2.2.2.2.2.2.2.2.2.2.2.2 sampleCloud⟩

/-- C3: in every disarmed state and for every cloud, `dataCallback` emits nothing
(no file, no publish) and returns the state unchanged in every field; running any
number of cloud deliveries from a disarmed state equals running none. -/
theorem dataCallback_idle_noop (s : SnapshotMap) (h : s.create_map_ = false) :
    (∀ point_cloud : PointCloud2, dataCallback s point_cloud = (s, [])) ∧
    (∀ clouds : List PointCloud2, run s (clouds.map Op.cloud) = (s, [])) := by
  refine ⟨fun pc => dataCallback_idle s pc h, fun clouds => ?_⟩
  induction clouds with
  | nil => rfl
  | cons pc pcs ih =>
    simp only [List.map_cons, run, step, dataCallback_idle s pc h, ih, List.nil_append]

/-- The initial state ignores the sample cloud, once or three times in a row. -/
theorem dataCallback_idle_noop_witness :
    initial.create_map_ = false ∧
    dataCallback initial sampleCloud = (initial, []) ∧
    run initial [Op.cloud sampleCloud, Op.cloud sampleCloud, Op.cloud sampleCloud] =
      (initial, []) :=
  ⟨rfl, (dataCallback_idle_noop initial rfl).1 sampleCloud,
    (dataCallback_idle_noop initial rfl).2 [sampleCloud, sampleCloud, sampleCloud]⟩

/-- C4, as stated, fails at the largest `int`: from the disarmed state with counter
`2147483647` a request answers `-2147483648`, and after the cloud the heartbeat
publishes `-2147483648`, neither being the counter plus one. -/
theorem predicted_id_wraps_at_int_max :
    counterAtMax.create_map_ = false ∧
    counterAtMax.responseId_ = 2147483647 ∧
    (run counterAtMax [Op.request { str := "chair" }, Op.cloud sampleCloud, Op.heartbeat]).2 =
      [Event.response true { responseId := -2147483648 },
       Event.save "./chair.map" (buildMap counterAtMax sampleCloud),
       Event.publishCloud
         { header := sampleCloud.header, map := buildMap counterAtMax sampleCloud,
           depth := -1, viewDir := -1, random := false },
       Event.publishStatus (-2147483648)] ∧
    (-2147483648 : Int) ≠ counterAtMax.responseId_ + 1 := by
  refine ⟨rfl, rfl, ?_, by decide⟩
  rw [request_cloud_heartbeat]
  rfl

/-- C4, amended: the id a request predicts is the id the completed capture
carries. From every disarmed state a request, a cloud and a heartbeat in a row
save `folder/name.map`, leave the counter equal to the answered id and then publish
that id as the status; the answered id is `c + 1` whenever the counter `c` is an
`int` below `2147483647`. From the initial state (counter `-1`, folder `"."`) a
request for `"chair"` answers `0`, any cloud then saves `"./chair.map"` and sets
the counter to `0`, and the heartbeat publishes `0`. -/
theorem predicted_id_is_completed_id :
    (∀ (s : SnapshotMap) (req : Request) (point_cloud : PointCloud2),
      s.create_map_ = false →
      savedPaths (run s [Op.request req, Op.cloud point_cloud, Op.heartbeat]).2 =
        [s.map_folder_ ++ "/" ++ req.str ++ ".map"] ∧
      (run s [Op.request req, Op.cloud point_cloud]).1.responseId_ =
        (snapshotRequest s req).2.2.responseId ∧
      publishedStatuses (run s [Op.request req, Op.cloud point_cloud, Op.heartbeat]).2 =
        [(snapshotRequest s req).2.2.responseId] ∧
      (run s [Op.request req, Op.cloud point_cloud]).1.create_map_ = false ∧
      (-2147483648 ≤ s.responseId_ → s.responseId_ < 2147483647 →
        (snapshotRequest s req).2.2.responseId = s.responseId_ + 1 ∧
        (run s [Op.request req, Op.cloud point_cloud, Op.heartbeat]).2 =
          [Event.response true { responseId := s.responseId_ + 1 },
           Event.save (s.map_folder_ ++ "/" ++ req.str ++ ".map") (buildMap s point_cloud),
           Event.publishCloud
             { header := point_cloud.header, map := buildMap s point_cloud,
               depth := -1, viewDir := -1, random := false },
           Event.publishStatus (s.responseId_ + 1)])) ∧
    (∀ point_cloud : PointCloud2,
      initial.responseId_ = -1 ∧ initial.map_folder_ = "." ∧ initial.create_map_ = false ∧
      (snapshotRequest initial { str := "chair" }).2.2.responseId = 0 ∧
      savedPaths (dataCallback (snapshotRequest initial { str := "chair" }).1 point_cloud).2 =
        ["./chair.map"] ∧
      (dataCallback (snapshotRequest initial { str := "chair" }).1 point_cloud).1.responseId_ = 0 ∧
      (update (dataCallback (snapshotRequest initial { str := "chair" }).1 point_cloud).1).2 =
        [Event.publishStatus 0] ∧
      publishedStatuses
        (run initial [Op.request { str := "chair" }, Op.cloud point_cloud, Op.heartbeat]).2 =
        [0]) := by
  constructor
  · intro s req point_cloud _
    refine ⟨?_, ?_, ?_, ?_, fun hlo hhi => ⟨?_, ?_⟩⟩
    · rw [request_cloud_heartbeat]
      rfl
    · simp only [run, step, request_then_cloud]
      simp [snapshotRequest_eq]
    · rw [request_cloud_heartbeat]
      simp [publishedStatuses, snapshotRequest_eq]
    · simp only [run, step, request_then_cloud]
    · simp [snapshotRequest_eq, wrapInt32_succ _ hlo hhi]
    · rw [request_cloud_heartbeat, wrapInt32_succ _ hlo hhi]
  · intro point_cloud
    refine ⟨rfl, rfl, rfl, rfl, ?_, ?_, ?_, ?_⟩ <;>
      simp only [run, step, update, request_then_cloud, savedPaths, publishedStatuses] <;> rfl

/-- The chair scenario on the sample cloud, as one run from the initial state. -/
theorem predicted_id_is_completed_id_witness :
    initial.create_map_ = false ∧
    -2147483648 ≤ initial.responseId_ ∧ initial.responseId_ < 2147483647 ∧
    (run initial [Op.request { str := "chair" }, Op.cloud sampleCloud, Op.heartbeat]).2 =
      [Event.response true { responseId := 0 },
       Event.save "./chair.map" (buildMap initial sampleCloud),
       Event.publishCloud
         { header := sampleCloud.header, map := buildMap initial sampleCloud,
           depth := -1, viewDir := -1, random := false },
       Event.publishStatus 0] :=
  ⟨rfl, by decide, by decide,
    ((predicted_id_is_completed_id.1 initial { str := "chair" } sampleCloud rfl).2.2.2.2
      (by decide) (by decide)).2⟩

/-- C5, as stated, fails at the largest `int`: with counter `2147483647` the two
requests both answer `-2147483648` and the cloud leaves the counter at
`-2147483648`, not at the counter plus one. -/
theorem last_request_wraps_at_int_max :
    counterAtMax.responseId_ = 2147483647 ∧
    (run counterAtMax
      [Op.request { str := "cup" }, Op.request { str := "mug" }, Op.cloud sampleCloud]).2 =
      [Event.response true { responseId := -2147483648 },
       Event.response true { responseId := -2147483648 },
       Event.save "./mug.map" (buildMap counterAtMax sampleCloud),
       Event.publishCloud
         { header := sampleCloud.header, map := buildMap counterAtMax sampleCloud,
           depth := -1, viewDir := -1, random := false }] ∧
    (run counterAtMax
      [Op.request { str := "cup" }, Op.request { str := "mug" },
       Op.cloud sampleCloud]).1.responseId_ = -2147483648 ∧
    (-2147483648 : Int) ≠ counterAtMax.responseId_ + 1 := by
  refine ⟨rfl, ?_, ?_, by decide⟩
  · rw [request_request_cloud]
    rfl
  · rw [request_request_cloud, request_then_cloud]
    simp only [snapshotRequest_eq]
    decide

/-- C5, amended: last request wins. In every state two requests for `a` and then
`b` with no cloud in between answer the same id; the one cloud delivered next saves
exactly one file, `folder/b.map` (so nothing under `a` when the names differ),
disarms and leaves the counter at that id. The id is `c + 1` whenever the counter
`c` is an `int` below `2147483647`. With counter `0` and folder `"."`, requests for
`"cup"` and `"mug"` both answer `1` and the cloud saves `"./mug.map"`, not
`"./cup.map"`, with counter `1`. -/
theorem last_request_wins :
    (∀ (s : SnapshotMap) (a b : Request) (point_cloud : PointCloud2),
      (snapshotRequest (snapshotRequest s a).1 b).2.2.responseId =
        (snapshotRequest s a).2.2.responseId ∧
      savedPaths (run s [Op.request a, Op.request b, Op.cloud point_cloud]).2 =
        [s.map_folder_ ++ "/" ++ b.str ++ ".map"] ∧
      (a.str ≠ b.str →
        s.map_folder_ ++ "/" ++ a.str ++ ".map" ∉
          savedPaths (run s [Op.request a, Op.request b, Op.cloud point_cloud]).2) ∧
      (run s [Op.request a, Op.request b, Op.cloud point_cloud]).1.responseId_ =
        (snapshotRequest s a).2.2.responseId ∧
      (run s [Op.request a, Op.request b, Op.cloud point_cloud]).1.create_map_ = false ∧
      (-2147483648 ≤ s.responseId_ → s.responseId_ < 2147483647 →
        (snapshotRequest s a).2.2.responseId = s.responseId_ + 1 ∧
        (snapshotRequest (snapshotRequest s a).1 b).2.2.responseId = s.responseId_ + 1 ∧
        (run s [Op.request a, Op.request b, Op.cloud point_cloud]).2 =
          [Event.response true { responseId := s.responseId_ + 1 },
           Event.response true { responseId := s.responseId_ + 1 },
           Event.save (s.map_folder_ ++ "/" ++ b.str ++ ".map") (buildMap s point_cloud),
           Event.publishCloud
             { header := point_cloud.header, map := buildMap s point_cloud,
               depth := -1, viewDir := -1, random := false }] ∧
        (run s [Op.request a, Op.request b, Op.cloud point_cloud]).1.responseId_ =
          s.responseId_ + 1)) ∧
    (∀ (s : SnapshotMap) (point_cloud : PointCloud2),
      s.responseId_ = 0 → s.map_folder_ = "." →
      (snapshotRequest s { str := "cup" }).2.2.responseId = 1 ∧
      (snapshotRequest (snapshotRequest s { str := "cup" }).1 { str := "mug" }).2.2.responseId = 1 ∧
      savedPaths
        (run s [Op.request { str := "cup" }, Op.request { str := "mug" }, Op.cloud point_cloud]).2 =
        ["./mug.map"] ∧
      "./cup.map" ∉ savedPaths
        (run s [Op.request { str := "cup" }, Op.request { str := "mug" }, Op.cloud point_cloud]).2 ∧
      (run s [Op.request { str := "cup" }, Op.request { str := "mug" },
        Op.cloud point_cloud]).1.responseId_ = 1) := by
  have final : ∀ (s : SnapshotMap) (a b : Request) (point_cloud : PointCloud2),
      (run s [Op.request a, Op.request b, Op.cloud point_cloud]).1.responseId_ =
        wrapInt32 (s.responseId_ + 1) := by
    intro s a b point_cloud
    rw [request_request_cloud, request_then_cloud]
    simp [snapshotRequest_eq]
  constructor
  · intro s a b point_cloud
    have hpaths : savedPaths (run s [Op.request a, Op.request b, Op.cloud point_cloud]).2 =
        [s.map_folder_ ++ "/" ++ b.str ++ ".map"] := by
      rw [request_request_cloud]
      rfl
    refine ⟨by simp [snapshotRequest_eq], hpaths, ?_, ?_, ?_, fun hlo hhi => ⟨?_, ?_, ?_, ?_⟩⟩
    · intro hne hmem
      rw [hpaths, List.mem_singleton] at hmem
      exact hne (mapPath_injective _ _ _ hmem)
    · rw [final]
      simp [snapshotRequest_eq]
    · rw [request_request_cloud, request_then_cloud]
    · simp [snapshotRequest_eq, wrapInt32_succ _ hlo hhi]
    · simp [snapshotRequest_eq, wrapInt32_succ _ hlo hhi]
    · rw [request_request_cloud, wrapInt32_succ _ hlo hhi]
    · rw [final, wrapInt32_succ _ hlo hhi]
  · intro s point_cloud hc hf
    have hw : wrapInt32 (s.responseId_ + 1) = 1 := by
      rw [hc]
      decide
    have hpaths : savedPaths (run s [Op.request { str := "cup" }, Op.request { str := "mug" },
        Op.cloud point_cloud]).2 = ["./mug.map"] := by
      rw [request_request_cloud, hf]
      rfl
    refine ⟨by simp [snapshotRequest_eq, hw], by simp [snapshotRequest_eq, hw], hpaths, ?_, ?_⟩
    · rw [hpaths]
      decide
    · rw [final, hw]

/-- The cup and mug scenario, run on the state left by the chair capture. -/
theorem last_request_wins_witness :
    (dataCallback armedChair sampleCloud).1.responseId_ = 0 ∧
    (dataCallback armedChair sampleCloud).1.map_folder_ = "." ∧
    savedPaths
      (run (dataCallback armedChair sampleCloud).1
        [Op.request { str := "cup" }, Op.request { str := "mug" }, Op.cloud sampleCloud]).2 =
      ["./mug.map"] ∧
    (run (dataCallback armedChair sampleCloud).1
      [Op.request { str := "cup" }, Op.request { str := "mug" },
       Op.cloud sampleCloud]).1.responseId_ = 1 :=
  have w := last_request_wins.2 (dataCallback armedChair sampleCloud).1 sampleCloud rfl rfl
  ⟨rfl, rfl, w.2.2.1, w.2.2.2.2⟩

/-- C6: in every state, `update` publishes exactly one status message, carrying
the current counter, and changes no field. Hence `n` heartbeats in a row publish the
same value `n` times, and in any run without a capture in between (no cloud at all,
or only clouds that find the controller disarmed), requests or not, every heartbeat
publishes that same value. -/
theorem update_publishes_counter :
    (∀ s : SnapshotMap, update s = (s, [Event.publishStatus s.responseId_])) ∧
    (∀ (s : SnapshotMap) (n : Nat),
      run s (List.replicate n Op.heartbeat) =
        (s, List.replicate n (Event.publishStatus s.responseId_))) ∧
    (∀ (s : SnapshotMap) (ops : List Op), (∀ op ∈ ops, op.isCloud = false) →
      publishedStatuses (run s ops).2 = List.replicate (heartbeats ops) s.responseId_) ∧
    (∀ (s : SnapshotMap) (ops : List Op), captures s ops = 0 →
      publishedStatuses (run s ops).2 = List.replicate (heartbeats ops) s.responseId_) := by
  have key : ∀ (ops : List Op) (s : SnapshotMap), captures s ops = 0 →
      publishedStatuses (run s ops).2 = List.replicate (heartbeats ops) s.responseId_ := by
    intro ops
    induction ops with
    | nil => intro s _; rfl
    | cons op ops ih =>
      intro s h
      simp only [captures] at h
      have h2 := step_responseId s op
      have h3 : (step s op).1.responseId_ = s.responseId_ := by
        split at h2
        · rename_i hc
          rw [if_pos hc] at h
          omega
        · exact h2
      have h4 := ih (step s op).1 (by omega)
      simp only [run, publishedStatuses_append, h4, step_publishedStatuses, h3]
      cases op <;> simp [heartbeats, List.replicate_succ]
  have none : ∀ (ops : List Op) (s : SnapshotMap), (∀ op ∈ ops, op.isCloud = false) →
      captures s ops = 0 := by
    intro ops
    induction ops with
    | nil => intro s _; rfl
    | cons op ops ih =>
      intro s h
      simp only [captures, h op (List.mem_cons_self _ _), Bool.false_and]
      rw [ih _ (fun o ho => h o (List.mem_cons_of_mem _ ho))]
      simp
  refine ⟨fun s => rfl, ?_, fun s ops h => key ops s (none ops s h), fun s ops h => key ops s h⟩
  intro s n
  induction n with
  | zero => rfl
  | succ n ih => simp only [List.replicate_succ, run, step, update, ih, List.singleton_append]

/-- Three heartbeats and two requests from the initial state: the status `-1` is
published three times. -/
theorem update_publishes_counter_witness :
    (∀ op ∈ [Op.heartbeat, Op.request { str := "cup" }, Op.heartbeat,
        Op.request { str := "mug" }, Op.heartbeat], op.isCloud = false) ∧
    publishedStatuses
      (run initial [Op.heartbeat, Op.request { str := "cup" }, Op.heartbeat,
        Op.request { str := "mug" }, Op.heartbeat]).2 = [-1, -1, -1] :=
  ⟨by decide, update_publishes_counter.2.2.1 initial _ (by decide)⟩

/-- C7, as stated, fails: `2147483648` complete captures from the initial state
bring the counter to `2147483647`, and the next request and cloud make it
`-2147483648`, so the counter falls. -/
theorem responseId_falls_at_int_max :
    (run initial (captureCycles 2147483648)).1.responseId_ = 2147483647 ∧
    (run initial
      (captureCycles 2147483648 ++
        [Op.request { str := "chair" }, Op.cloud sampleCloud])).1.responseId_ = -2147483648 ∧
    (run initial
      (captureCycles 2147483648 ++
        [Op.request { str := "chair" }, Op.cloud sampleCloud])).1.responseId_ <
      (run initial (captureCycles 2147483648)).1.responseId_ := by
  have h1 : (run initial (captureCycles 2147483648)).1.responseId_ = 2147483647 := by
    rw [counterAtMax_reachable]
    rfl
  have h2 : (run initial (captureCycles 2147483648 ++
      [Op.request { str := "chair" }, Op.cloud sampleCloud])).1.responseId_ = -2147483648 := by
    rw [run_append, counterAtMax_reachable]
    simp only [run, step, request_then_cloud]
    decide
  refine ⟨h1, h2, ?_⟩
  rw [h1, h2]
  decide

/-- C7, amended: the counter is `-1` after construction. A request, a heartbeat
and a cloud delivered while disarmed leave it unchanged; a cloud delivered while
armed raises it by exactly one whenever it is an `int` below `2147483647`. Hence
along every sequence of requests, clouds and heartbeats from construction with at
most `2147483648` completed captures the counter is the number of captures minus
one, each operation leaves it unchanged or raises it by exactly one, and it never
falls. -/
theorem responseId_monotone :
    (∀ ps : ParamServer, (ctor ps).1.responseId_ = -1) ∧
    (∀ (s : SnapshotMap) (op : Op), ¬ (op.isCloud = true ∧ s.create_map_ = true) →
      (step s op).1.responseId_ = s.responseId_) ∧
    (∀ (s : SnapshotMap) (op : Op), op.isCloud = true → s.create_map_ = true →
      -2147483648 ≤ s.responseId_ → s.responseId_ < 2147483647 →
      (step s op).1.responseId_ = s.responseId_ + 1) ∧
    (∀ (ps : ParamServer) (ops : List Op), captures (ctor ps).1 ops ≤ 2147483648 →
      (run (ctor ps).1 ops).1.responseId_ = (captures (ctor ps).1 ops : Int) - 1) ∧
    (∀ (ps : ParamServer) (ops : List Op) (op : Op),
      captures (ctor ps).1 (ops ++ [op]) ≤ 2147483648 →
      (step (run (ctor ps).1 ops).1 op).1.responseId_ = (run (ctor ps).1 ops).1.responseId_ ∨
      (step (run (ctor ps).1 ops).1 op).1.responseId_ =
        (run (ctor ps).1 ops).1.responseId_ + 1) ∧
    (∀ (ps : ParamServer) (ops ops2 : List Op),
      captures (ctor ps).1 (ops ++ ops2) ≤ 2147483648 →
      -1 ≤ (run (ctor ps).1 ops).1.responseId_ ∧
      (run (ctor ps).1 ops).1.responseId_ ≤ (run (ctor ps).1 (ops ++ ops2)).1.responseId_) := by
  refine ⟨fun ps => rfl, ?_, ?_, fun ps ops h => run_ctor_responseId ps ops h, ?_, ?_⟩
  · intro s op h
    rw [step_responseId]
    split
    · simp_all
    · rfl
  · intro s op h1 h2 hlo hhi
    rw [step_responseId]
    simp [h1, h2, wrapInt32_succ _ hlo hhi]
  · intro ps ops op h
    rw [captures_append] at h
    have hc := run_ctor_responseId ps ops (by omega)
    rw [step_responseId]
    split
    · right
      rename_i hcap
      have : captures (run (ctor ps).1 ops).1 [op] = 1 := by simp [captures, hcap]
      exact wrapInt32_succ _ (by omega) (by omega)
    · left
      rfl
  · intro ps ops ops2 h
    have h2 := h
    rw [captures_append] at h2
    rw [run_ctor_responseId ps ops (by omega), run_ctor_responseId ps (ops ++ ops2) h,
      captures_append]
    push_cast
    omega

/-- A request, a cloud and a heartbeat from the initial state: one capture, and the
counter goes from `-1` to `0`. -/
theorem responseId_monotone_witness :
    captures initial ([Op.request { str := "chair" }, Op.cloud sampleCloud] ++ [Op.heartbeat]) ≤
      2147483648 ∧
    -1 ≤ (run initial [Op.request { str := "chair" }, Op.cloud sampleCloud]).1.responseId_ ∧
    (run initial [Op.request { str := "chair" }, Op.cloud sampleCloud]).1.responseId_ ≤
      (run initial
        ([Op.request { str := "chair" }, Op.cloud sampleCloud] ++ [Op.heartbeat])).1.responseId_ :=
  ⟨by decide,
    responseId_monotone.2.2.2.2.2
      { max_resolution := none, max_radius := none, map_folder := none }
      [Op.request { str := "chair" }, Op.cloud sampleCloud] [Op.heartbeat] (by decide)⟩

/-- C8: at most one capture session at any time. After construction nothing is
subscribed. In every state reached from construction by requests, clouds and
heartbeats there is at most one live cloud subscription, it exists exactly when the
controller is armed, and the handle is active exactly then. After every cloud
delivery none is left. A request made while armed leaves exactly one subscription,
and one cloud then returns the controller to disarmed with none. -/
theorem at_most_one_session :
    (∀ ps : ParamServer,
      (ctor ps).1.nh_.subscriptions = 0 ∧ (ctor ps).1.create_map_ = false) ∧
    (∀ (ps : ParamServer) (ops : List Op),
      (run (ctor ps).1 ops).1.nh_.subscriptions ≤ 1 ∧
      ((run (ctor ps).1 ops).1.nh_.subscriptions = 1 ↔
        (run (ctor ps).1 ops).1.create_map_ = true) ∧
      (run (ctor ps).1 ops).1.sub_cloud_.active = (run (ctor ps).1 ops).1.create_map_) ∧
    (∀ (ps : ParamServer) (ops : List Op) (point_cloud : PointCloud2),
      (run (ctor ps).1 (ops ++ [Op.cloud point_cloud])).1.nh_.subscriptions = 0 ∧
      (run (ctor ps).1 (ops ++ [Op.cloud point_cloud])).1.create_map_ = false) ∧
    (∀ (ps : ParamServer) (ops : List Op) (a b : Request) (point_cloud : PointCloud2),
      (run (ctor ps).1 (ops ++ [Op.request a])).1.create_map_ = true ∧
      (run (ctor ps).1 (ops ++ [Op.request a, Op.request b])).1.nh_.subscriptions = 1 ∧
      (run (ctor ps).1
        (ops ++ [Op.request a, Op.request b, Op.cloud point_cloud])).1.nh_.subscriptions = 0 ∧
      (run (ctor ps).1
        (ops ++ [Op.request a, Op.request b, Op.cloud point_cloud])).1.create_map_ = false) := by
  have inv : ∀ (ps : ParamServer) (ops : List Op), SingleSession (run (ctor ps).1 ops).1 :=
    fun ps ops => singleSession_run _ ops (singleSession_ctor ps)
  have last : ∀ (s : SnapshotMap) (ops : List Op) (op : Op),
      (run s (ops ++ [op])).1 = (step (run s ops).1 op).1 := by
    intro s ops op
    rw [run_append]
    rfl
  refine ⟨fun ps => ⟨rfl, rfl⟩, ?_, ?_, ?_⟩
  · intro ps ops
    obtain ⟨h1, h2⟩ := inv ps ops
    cases hc : (run (ctor ps).1 ops).1.create_map_ <;> simp [h1, h2, hc]
  · intro ps ops point_cloud
    obtain ⟨h1, _⟩ := inv ps (ops ++ [Op.cloud point_cloud])
    have hc : (run (ctor ps).1 (ops ++ [Op.cloud point_cloud])).1.create_map_ = false := by
      rw [last, step_create_map]
    rw [hc] at h1
    exact ⟨by simpa using h1, hc⟩
  · intro ps ops a b point_cloud
    have e2 : ops ++ [Op.request a, Op.request b] = (ops ++ [Op.request a]) ++ [Op.request b] := by
      simp
    have e3 : ops ++ [Op.request a, Op.request b, Op.cloud point_cloud] =
        (ops ++ [Op.request a, Op.request b]) ++ [Op.cloud point_cloud] := by
      simp
    have c1 : (run (ctor ps).1 (ops ++ [Op.request a])).1.create_map_ = true := by
      rw [last, step_create_map]
    have c2 : (run (ctor ps).1 (ops ++ [Op.request a, Op.request b])).1.create_map_ = true := by
      rw [e2, last, step_create_map]
    have c3 : (run (ctor ps).1
        (ops ++ [Op.request a, Op.request b, Op.cloud point_cloud])).1.create_map_ = false := by
      rw [e3, last, step_create_map]
    obtain ⟨h2, _⟩ := inv ps (ops ++ [Op.request a, Op.request b])
    obtain ⟨h3, _⟩ := inv ps (ops ++ [Op.request a, Op.request b, Op.cloud point_cloud])
    rw [c2] at h2
    rw [c3] at h3
    exact ⟨c1, by simpa using h2, by simpa using h3, c3⟩

/-- C10, as stated, fails: after `2147483649` complete captures from the initial
state `2147483649` maps have been saved and as many clouds published, while the
counter is `-2147483648`, not that number minus one. -/
theorem outputs_outrun_counter :
    (savedPaths (run initial (captureCycles 2147483649)).2).length = 2147483649 ∧
    (publishedClouds (run initial (captureCycles 2147483649)).2).length = 2147483649 ∧
    (run initial (captureCycles 2147483649)).1.responseId_ = -2147483648 ∧
    ((savedPaths (run initial (captureCycles 2147483649)).2).length : Int) ≠
      (run initial (captureCycles 2147483649)).1.responseId_ + 1 := by
  have h1 := (run_counts initial (captureCycles 2147483649)).1
  have h2 := (run_counts initial (captureCycles 2147483649)).2.1
  rw [captures_captureCycles] at h1 h2
  have h3 : (run initial (captureCycles 2147483649)).1.responseId_ = -2147483648 := by
    rw [run_captureCycles 2147483648 initial rfl rfl rfl]
    decide
  refine ⟨h1, h2, h3, ?_⟩
  rw [h1, h3]
  decide

/-- C10, amended: outputs stay in step with each other, and with the counter up to
`2147483648` saved maps. After every sequence of requests, clouds and heartbeats run
from construction, the number of maps saved equals the number of visualization
clouds published, and the number of requests that arrived while disarmed equals
that number when the controller is disarmed and that number plus one when it is
armed. As long as that number is at most `2147483648` it equals the counter plus
one, so the requests that arrived while disarmed number the counter plus one when
disarmed and the counter plus two when armed. -/
theorem outputs_track_counter (ps : ParamServer) (ops : List Op) :
    (savedPaths (run (ctor ps).1 ops).2).length =
      (publishedClouds (run (ctor ps).1 ops).2).length ∧
    idleRequests (ctor ps).1 ops =
      (savedPaths (run (ctor ps).1 ops).2).length +
        (if (run (ctor ps).1 ops).1.create_map_ then 1 else 0) ∧
    ((savedPaths (run (ctor ps).1 ops).2).length ≤ 2147483648 →
      ((savedPaths (run (ctor ps).1 ops).2).length : Int) =
        (run (ctor ps).1 ops).1.responseId_ + 1 ∧
      ((publishedClouds (run (ctor ps).1 ops).2).length : Int) =
        (run (ctor ps).1 ops).1.responseId_ + 1 ∧
      (idleRequests (ctor ps).1 ops : Int) =
        (run (ctor ps).1 ops).1.responseId_ +
          (if (run (ctor ps).1 ops).1.create_map_ then 2 else 1)) := by
  obtain ⟨h1, h2, h3⟩ := run_counts (ctor ps).1 ops
  have ha : (ctor ps).1.create_map_ = false := rfl
  rw [ha] at h3
  simp only [Bool.false_eq_true, if_false, Nat.add_zero] at h3
  refine ⟨by rw [h1, h2], by rw [h3, h1], fun hb => ?_⟩
  rw [h1] at hb
  have hc := run_ctor_responseId ps ops hb
  rw [h1, h2, h3, hc]
  refine ⟨by omega, by omega, ?_⟩
  cases hf : (run (ctor ps).1 ops).1.create_map_ <;> simp
  omega

/-- Two requests and one cloud from the initial state: one map saved, one cloud
published, one request arrived while disarmed, counter `0`. -/
theorem outputs_track_counter_witness :
    (savedPaths (run initial
      [Op.request { str := "cup" }, Op.request { str := "mug" },
       Op.cloud sampleCloud]).2).length ≤ 2147483648 ∧
    ((savedPaths (run initial
      [Op.request { str := "cup" }, Op.request { str := "mug" },
       Op.cloud sampleCloud]).2).length : Int) =
      (run initial
        [Op.request { str := "cup" }, Op.request { str := "mug" },
         Op.cloud sampleCloud]).1.responseId_ + 1 :=
  ⟨by decide,
    ((outputs_track_counter { max_resolution := none, max_radius := none, map_folder := none }
      [Op.request { str := "cup" }, Op.request { str := "mug" }, Op.cloud sampleCloud]).2.2
      (by decide)).1⟩

end SnapshotMap

end Training
